import Mathlib

/-!
A verification development for the Nexus-Mail purchase-extraction pipeline.

The definitions below are a shallow embedding of the TypeScript sources:

* `src/server/src/routes/newsletters.ts` — the purchases router:
  `determineEmailType` and the `POST /extract` reconciliation cascade
  (modelled by `extractStep`).
* `src/server/src/services/contactExtractor.ts` — the `Database` helpers
  (`savePurchase`, `getPurchases`, `markAsExcluded`, `getAnalysis`), the
  `PurchaseExtractor` (`extractPurchase`, `extractWithConfidence`,
  `calculatePurchaseScore`, `extractAmount`) and
  `NewsletterDetector.detectEmailType`.

Conventions of the embedding:

* JS numbers are modelled by `ℚ` (the arithmetic in scope is exact on the
  decimal literals involved, so rational arithmetic is faithful here);
  millisecond timestamps by `ℤ`.
* JS string truthiness (`""` and `null`/`undefined` are falsy) is modelled
  by `truthy` on `Option String`; `x || y` on strings by `jsOr`.
* `String.prototype.includes` is modelled by `strHas`;
  `String.prototype.toLowerCase` by `asciiLower` (ASCII-only lowering —
  identical to JS on the ASCII/Japanese keyword tables used here).
* Regex engines are not embedded: functions whose only regex use is to
  produce a list of candidate values (e.g. the numeric captures of
  `extractAmount`) are modelled over that candidate list, and the outputs
  of the leaf regex field extractors (`detectVendor`, `extractOrderId`, …)
  are passed to their callers as a `RegexFields` record.
* The SQLite tables are modelled as association lists; `INSERT OR REPLACE`
  honours the declared keys (`purchases`: primary key `id` plus
  `UNIQUE(user_id, email_id)`; `manual_exclusions`: primary key `email_id`).
-/

/-- JS string truthiness for optional string fields: `null`/`undefined` and
the empty string are falsy. -/
def truthy : Option String → Bool
  | none => false
  | some s => !(s == "")

/-- JS `a || b` on strings (empty string falls through). -/
def jsOr (a b : String) : String :=
  if a == "" then b else a

/-- JS `a || b` where `a` is an optional string (nullish or empty falls
through to `b`). -/
def jsOrOpt (a b : Option String) : Option String :=
  if truthy a then a else b

/-- `n` is a leading segment of `h` (character lists). -/
def isPrefOf : List Char → List Char → Bool
  | [], _ => true
  | _ :: _, [] => false
  | a :: as, b :: bs => a == b && isPrefOf as bs

/-- `n` occurs as a contiguous segment of `h` (character lists). -/
def subOf (n : List Char) : List Char → Bool
  | [] => isPrefOf n []
  | b :: bs => isPrefOf n (b :: bs) || subOf n bs

/-- JS `hay.includes(needle)`. -/
def strHas (hay needle : String) : Bool :=
  subOf needle.data hay.data

/-- ASCII-only lowercasing of a character (JS `toLowerCase` restricted to
ASCII; all the Japanese keywords in the rule tables are fixed points). -/
def asciiLowerChar (c : Char) : Char :=
  if 65 ≤ c.toNat && c.toNat ≤ 90 then Char.ofNat (c.toNat + 32) else c

/-- ASCII-only lowercasing of a string. -/
def asciiLower (s : String) : String :=
  String.mk (s.data.map asciiLowerChar)

-- Quick sanity checks of the string utilities.
example : strHas "hello world" "lo w" = true := by decide
example : strHas "hello" "xyz" = false := by decide
example : asciiLower "Re: Fwd" = "re: fwd" := by decide
example : strHas "ご注文のキャンセル" "キャンセル" = true := by decide

/-! ## Per-email role classification (`determineEmailType`, newsletters.ts 181-234) -/

/-- Email role tags assigned by `determineEmailType`. -/
inductive EmailKind where
  | order
  | shipping
  | cancellation
  | unknown
deriving DecidableEq

/-- Cancellation indicators (checked first for priority). -/
def cancellationKeywords : List String :=
  ["キャンセル", "cancelled", "canceled", "cancellation",
   "取消", "refund", "返金", "order cancelled", "order canceled",
   "ご注文のキャンセル", "order has been cancelled", "order has been canceled",
   "キャンセルされました", "キャンセル完了"]

/-- Shipping indicators. -/
def shippingKeywords : List String :=
  ["発送", "shipped", "shipping", "dispatched", "delivered",
   "配送", "tracking", "追跡", "出荷", "on its way",
   "has been sent", "お届け"]

/-- Order confirmation indicators. -/
def orderKeywords : List String :=
  ["注文", "order confirmation", "order placed", "order received",
   "thank you for your order", "ご注文", "購入完了", "注文確定",
   "order #", "注文番号", "purchase confirmation"]

/-- `keyword => subjectLower.includes(keyword) || bodyLower.includes(keyword)`. -/
def hasKwIn (subjectLower bodyLower keyword : String) : Bool :=
  strHas subjectLower keyword || strHas bodyLower keyword

/-- `determineEmailType(subject, body)` from the purchases router:
cancellation keywords win outright; `order` only beats `shipping` when no
shipping keyword matches. -/
def determineEmailType (subject body : String) : EmailKind :=
  let subjectLower := asciiLower subject
  let bodyLower := asciiLower body
  let isCancellation := cancellationKeywords.any (hasKwIn subjectLower bodyLower)
  if isCancellation then .cancellation
  else
    let isShipping := shippingKeywords.any (hasKwIn subjectLower bodyLower)
    let isOrder := orderKeywords.any (hasKwIn subjectLower bodyLower)
    if isOrder && !isShipping then .order
    else if isShipping then .shipping
    else .unknown

example : determineEmailType "ご注文のキャンセル" "x" = .cancellation := by decide
example : determineEmailType "Order #123 shipped" "x" = .shipping := by decide
example : determineEmailType "Order # confirmation" "thanks" = .order := by decide
example : determineEmailType "hello" "world" = .unknown := by decide

/-! ## Purchase records and the per-user store -/

/-- An item line of a purchase (`PurchaseItem` in contactExtractor.ts). -/
structure PurchaseItem where
  name : String
  quantity : Nat
  price : ℚ
deriving DecidableEq

/-- A purchase record as handled by the extractor and the purchases router
(the `Purchase` / `StoredPurchase` interfaces).  `date` is the millisecond
timestamp of the ISO date string; `emailType` is `none` until the router
tags the record. -/
structure Purchase where
  id : String
  orderId : Option String := none
  vendor : String
  amount : ℚ
  currency : String := "JPY"
  date : ℤ
  items : List PurchaseItem := []
  status : Option String := none
  trackingNumber : Option String := none
  deliveryDate : Option String := none
  category : Option String := none
  paymentMethod : Option String := none
  emailId : String
  emailType : Option EmailKind := none
  relatedEmailIds : List String := []
  confidence : ℚ := 0
  aiAnalyzed : Bool := false
deriving DecidableEq

/-- Per-user server state: the `purchases` table rows of the user (in the
order of the `getPurchases` read) and the `manual_exclusions` rows
`(email_id, reason)`. -/
structure UserState where
  purchases : List Purchase
  exclusions : List (String × String)
deriving DecidableEq

/-- `Database.markAsExcluded` (contactExtractor.ts 581-589):
`INSERT OR REPLACE INTO manual_exclusions`, keyed by `email_id`. -/
def markAsExcluded (l : List (String × String)) (emailId reason : String) :
    List (String × String) :=
  (emailId, reason) :: l.filter (fun x => !(x.1 == emailId))

/-- The reason recorded for an email in `manual_exclusions`, if any. -/
def exclReason (l : List (String × String)) (emailId : String) : Option String :=
  (l.find? (fun x => x.1 == emailId)).map (·.2)

/-- `Database.savePurchase` (contactExtractor.ts 610-638):
`INSERT OR REPLACE INTO purchases`.  The table has primary key `id` and
`UNIQUE(user_id, email_id)`, so the replace evicts any row sharing either
the `id` or the `email_id` of the incoming row. -/
def savePurchase (ps : List Purchase) (p : Purchase) : List Purchase :=
  ps.filter (fun r => !(r.id == p.id) && !(r.emailId == p.emailId)) ++ [p]

/-- `Database.getPurchases` (contactExtractor.ts 640-656).  The `SELECT *`
row is spread with its snake_case column keys and the mapper restores
camelCase only for `email_id`, `email_subject`, `email_from`, `items` and
`related_email_ids`.  The camelCase fields backed by snake_case-only
columns — `orderId` (`order_id`), `trackingNumber` (`tracking_number`),
`emailType` (`email_type`), `paymentMethod` (`payment_method`) — and
`deliveryDate` (no column at all) are therefore `undefined` on every
loaded record, modelled by `none`; the single-word columns (`id`,
`vendor`, `amount`, `currency`, `date`, `status`, `category`) survive the
round trip.  (`confidence`/`aiAnalyzed` are not columns either and are
never read back from loaded records by the router.) -/
def getPurchases (rows : List Purchase) : List Purchase :=
  rows.map (fun row =>
    { row with orderId := none, trackingNumber := none, emailType := none,
               paymentMethod := none, deliveryDate := none })

/-- `Array.prototype.findIndex` together with the element found. -/
def findWithIdx (pr : Purchase → Bool) : List Purchase → Option (Nat × Purchase)
  | [] => none
  | x :: xs =>
    if pr x then some (0, x)
    else (findWithIdx pr xs).map (fun y => (y.1 + 1, y.2))

/-- `Math.abs(a - b) < 1` on amounts. -/
def amountClose (a b : ℚ) : Bool :=
  decide (|a - b| < 1)

/-- Seven days in milliseconds (`7 * 24 * 60 * 60 * 1000`). -/
def sevenDaysMs : ℤ := 604800000

/-- The JSON body answered by `POST /extract`. -/
structure ExtractResponse where
  purchase : Option Purchase
  isNew : Bool
  isCancellation : Bool := false
  isDuplicate : Bool := false
deriving DecidableEq

/-! ## The `POST /extract` reconciliation cascade (newsletters.ts 324-485)

`extractStep` is the state transition of one request: it receives the
candidate `pu` already produced by `PurchaseExtractor.extractPurchase`
(the route returns early when that is `null`), the request `subject` and
`emailBody`, and — as `st.purchases` — the in-memory `userPurchases`
array the route obtained from `db.getPurchases` (modelled by
`getPurchases`).  The route's `emailId` request field always equals
`pu.emailId` (`extractPurchase` copies it into the candidate).  The
presentation-only columns `email_subject`/`email_from` are never read by
the cascade and are not modelled.

The cascades below transcribe the route's checks verbatim; note that on
any state actually loaded through `getPurchases` every record has
`orderId = none`, `trackingNumber = none` and `emailType = none`, so the
`(orderId, vendor)` duplicate cascade, the tracking-number cascade and
the cancellation branch's related-record lookup can never match — they
are dead code in the program (evaluated in the C1/C2 theorems below). -/

/-- The `orderId`/`vendor` duplicate cascade (newsletters.ts 393-436):
returns the index and the updated in-memory record when one of the three
merge branches fires. -/
def dupCascade (ps : List Purchase) (sp : Purchase) (et : EmailKind) :
    Option (Nat × Purchase) :=
  if truthy sp.orderId && !(sp.vendor == "") then
    match findWithIdx (fun p =>
        p.orderId == sp.orderId && p.vendor == sp.vendor
          && amountClose p.amount sp.amount) ps with
    | some (i, existing) =>
      if et == .order && existing.emailType == some .shipping then
        -- New email is an order, existing came from shipping: the new
        -- email's fields become primary, existing tracking is preserved.
        some (i, { sp with
          trackingNumber :=
            if truthy existing.trackingNumber then existing.trackingNumber
            else sp.trackingNumber,
          relatedEmailIds := existing.relatedEmailIds ++ [existing.emailId],
          emailType := some .order })
      else if et == .shipping && existing.emailType == some .order then
        -- New email is shipping: just add tracking info.
        some (i, { existing with
          trackingNumber :=
            if truthy sp.trackingNumber then sp.trackingNumber
            else existing.trackingNumber,
          relatedEmailIds := existing.relatedEmailIds ++ [sp.emailId] })
      else if decide (|existing.date - sp.date| < sevenDaysMs) then
        -- Same type or unknown, within 7 days: likely duplicate.
        some (i, { existing with
          relatedEmailIds := existing.relatedEmailIds ++ [sp.emailId] })
      else none
    | none => none
  else none

/-- The tracking-number duplicate check (newsletters.ts 439-452); the
route only reaches it with the store unmutated (`isDuplicate` false). -/
def trackCascade (ps : List Purchase) (sp : Purchase) :
    Option (Nat × Purchase) :=
  if truthy sp.trackingNumber then
    match findWithIdx (fun p =>
        p.trackingNumber == sp.trackingNumber && p.vendor == sp.vendor) ps with
    | some (i, q) =>
      some (i, { q with relatedEmailIds := q.relatedEmailIds ++ [sp.emailId] })
    | none => none
  else none

/-- One request to `POST /extract` with a non-null extraction candidate.
Returns the new user state and the JSON response.  In the duplicate
response lookup (newsletters.ts 472-475) the JS `===` comparison of a DB
`null` against an `undefined` candidate field is modelled as `none == none`
(true), which JS would report false; no theorem below depends on the
response of that branch. -/
def extractStep (st : UserState) (subject emailBody : String) (pu : Purchase) :
    UserState × ExtractResponse :=
  let emailType := determineEmailType subject emailBody
  let sp : Purchase := { pu with emailType := some emailType }
  if emailType == .cancellation then
    -- Cancellation: flag the related record and this email, delete nothing.
    let ex1 :=
      if truthy sp.orderId then
        match st.purchases.find? (fun p =>
            p.orderId == sp.orderId && p.vendor == sp.vendor) with
        | some relatedPurchase =>
          markAsExcluded st.exclusions relatedPurchase.emailId "cancelled"
        | none => st.exclusions
      else st.exclusions
    let ex2 := markAsExcluded ex1 sp.emailId "cancellation_email"
    ({ st with exclusions := ex2 },
     { purchase := some sp, isNew := false, isCancellation := true })
  else
    match st.purchases.find? (fun p => p.emailId == sp.emailId) with
    | some existing =>
      -- Already extracted from this email: answer with the stored record.
      (st, { purchase := some existing, isNew := false })
    | none =>
      let dup := dupCascade st.purchases sp emailType
      let track := if dup.isSome then none else trackCascade st.purchases sp
      let mutated :=
        match dup with
        | some (i, r) => st.purchases.set i r
        | none =>
          match track with
          | some (i, r) => st.purchases.set i r
          | none => st.purchases
      if dup.isSome || track.isSome then
        let savedOpt := mutated.find? (fun p =>
          (truthy p.orderId && p.orderId == sp.orderId)
            || (truthy p.trackingNumber && p.trackingNumber == sp.trackingNumber))
        let newStore :=
          match savedOpt with
          | some d => savePurchase st.purchases d
          | none => st.purchases
        let respPurchase := mutated.find? (fun p =>
          p.orderId == sp.orderId || p.trackingNumber == sp.trackingNumber)
        ({ st with purchases := newStore },
         { purchase := respPurchase, isNew := false, isDuplicate := true })
      else
        ({ st with purchases := savePurchase st.purchases sp },
         { purchase := some sp, isNew := true })

/-- `POST /:purchaseId/exclude` (newsletters.ts 541-568): manual exclusion
only inserts an exclusion row for the record's email. -/
def excludeStep (st : UserState) (emailId reason : String) : UserState :=
  { st with exclusions := markAsExcluded st.exclusions emailId reason }

/-! ## Persistent analysis cache (`Database.getAnalysis`, contactExtractor.ts 498-522) -/

/-- A row of the `email_analysis` table (the columns read by
`getAnalysis`); `analyzedAt` is a millisecond timestamp. -/
structure AnalysisRow where
  emailId : String
  userId : String
  analyzedAt : ℤ
  analysisResult : String
deriving DecidableEq

/-- One day in milliseconds. -/
def msPerDay : ℤ := 86400000

/-- `Database.getAnalysis(emailId, userId)` at current time `now`:
a hit older than 30 days is reported as a miss to force re-analysis. -/
def getAnalysis (rows : List AnalysisRow) (emailId userId : String) (now : ℤ) :
    Option String :=
  match rows.find? (fun r => r.emailId == emailId && r.userId == userId) with
  | some row =>
    if decide (row.analyzedAt < now - 30 * msPerDay) then none
    else some row.analysisResult
  | none => none

/-! ## `NewsletterDetector.detectEmailType` (contactExtractor.ts 2546-2630) -/

/-- Marketing / mail-magazine keywords. -/
def newsletterKeywords : List String :=
  ["配信停止", "配信解除", "メルマガ", "メールマガジン",
   "購読解除", "登録解除", "キャンペーン情報", "お得な情報",
   "セール情報", "新商品", "期間限定", "会員限定",
   "特別価格", "クーポン", "割引", "ポイント",
   "unsubscribe", "newsletter", "promotional", "marketing",
   "special offer", "exclusive deal", "flash sale", "discount",
   "limited time", "save now", "buy now", "shop now",
   "new arrival", "trending", "hot deals"]

/-- Service-announcement keywords. -/
def serviceAnnouncementKeywords : List String :=
  ["アップデート", "メンテナンス", "障害", "復旧",
   "パスワード", "認証", "ログイン", "アカウント",
   "請求書", "領収書", "支払い", "更新",
   "セキュリティ", "重要なお知らせ", "サービス",
   "update", "maintenance", "outage", "recovery",
   "password", "verification", "login", "account",
   "invoice", "receipt", "payment", "renewal",
   "security", "important notice", "service",
   "github", "gitlab", "pull request", "merge",
   "commit", "deployment", "build", "failed",
   "succeeded", "notification", "alert"]

/-- Marketing-ESP sender domain fragments. -/
def newsletterDomains : List String :=
  ["mailchimp.com", "sendgrid.net", "amazonses.com",
   "mailgun.org", "campaign-", "news.", "newsletter.",
   "marketing.", "email.", "mail.", "notify.", "notification."]

/-- Subject patterns that mark a personal-looking thread. -/
def exclusionPatterns : List String :=
  ["re:", "RE:", "Fwd:", "FWD:", "返信:", "転送:",
   "meeting", "appointment", "invoice", "receipt",
   "password", "verification", "confirm your"]

/-- The keyword-scoring loop shared by the service and newsletter checks:
each hit adds `inc` and pushes a reason; the loop stops as soon as the
score reaches `cap` (the `if (score >= cap) break` after the increment). -/
def kwScoreLoop (hit : String → Bool) (inc cap : Nat) (label : String → String) :
    List String → Nat → List String → Nat × List String
  | [], s, rs => (s, rs)
  | k :: ks, s, rs =>
    if hit k then
      let s' := s + inc
      let rs' := rs ++ [label k]
      if cap ≤ s' then (s', rs') else kwScoreLoop hit inc cap label ks s' rs'
    else kwScoreLoop hit inc cap label ks s rs

/-- Count of `https?://` occurrences (the global regex scan of the link
check); a match consumes its own characters before the scan resumes. -/
def countLinks : List Char → Nat
  | [] => 0
  | c :: rest =>
    if isPrefOf "https://".data (c :: rest) then 1 + countLinks (rest.drop 7)
    else if isPrefOf "http://".data (c :: rest) then 1 + countLinks (rest.drop 6)
    else countLinks rest
termination_by l => l.length
decreasing_by
  · simp [List.length_drop]; omega
  · simp [List.length_drop]; omega
  · simp

/-- Input of `NewsletterDetector.detectEmailType`. -/
structure EmailInput where
  subject : String := ""
  fromAddr : String := ""
  body : String := ""
  snippet : String := ""
deriving DecidableEq

/-- The coarse type labels of the signal scorer. -/
inductive EmailTypeLabel where
  | primary
  | newsletter
  | service_announcement
deriving DecidableEq

/-- Result of `NewsletterDetector.detectEmailType`. -/
structure TypeDetection where
  type : EmailTypeLabel
  confidence : Nat
  reasons : List String
deriving DecidableEq

/-- `NewsletterDetector.detectEmailType`: personal-pattern short-circuit,
then weighted keyword/domain scoring, then the threshold decision. -/
def NewsletterDetector.detectEmailType (email : EmailInput) : TypeDetection :=
  let subject := asciiLower email.subject
  let fromAddr := asciiLower email.fromAddr
  let content := asciiLower (email.body ++ " " ++ email.snippet)
  if exclusionPatterns.any (fun p => strHas subject (asciiLower p)) then
    { type := .primary, confidence := 100, reasons := ["Personal email pattern"] }
  else
    let hit := fun (k : String) =>
      strHas subject (asciiLower k) || strHas content (asciiLower k)
    let sv := kwScoreLoop hit 25 50
      (fun k => "Service keyword: \"" ++ k ++ "\"") serviceAnnouncementKeywords 0 []
    let nl := kwScoreLoop hit 20 60
      (fun k => "Newsletter keyword: \"" ++ k ++ "\"") newsletterKeywords 0 sv.2
    let serviceScore := sv.1
    let newsletterScore := nl.1
    let reasons := nl.2
    let domMatch := newsletterDomains.find? (fun d => strHas fromAddr d)
    let newsletterScore := newsletterScore + (if domMatch.isSome then 30 else 0)
    let reasons := reasons ++
      (match domMatch with
       | some d => ["Marketing domain: \"" ++ d ++ "\""]
       | none => [])
    let noReply := strHas fromAddr "no-reply" || strHas fromAddr "noreply"
    let serviceScore :=
      if noReply && 0 < sv.1 then serviceScore + 20 else serviceScore
    let newsletterScore :=
      if noReply && !(0 < sv.1 : Bool) then newsletterScore + 20 else newsletterScore
    let reasons := reasons ++ (if noReply then ["No-reply address"] else [])
    let unsub := strHas content "unsubscribe" || strHas content "配信停止"
    let newsletterScore := if unsub then newsletterScore + 30 else newsletterScore
    let reasons := reasons ++ (if unsub then ["Unsubscribe link"] else [])
    let linkCount := countLinks content.data
    let newsletterScore := if 7 < linkCount then newsletterScore + 20 else newsletterScore
    let reasons := reasons ++
      (if 7 < linkCount then ["Many links (" ++ toString linkCount ++ ")"] else [])
    if 50 ≤ serviceScore then
      { type := .service_announcement, confidence := min serviceScore 100,
        reasons := reasons }
    else if 50 ≤ newsletterScore then
      { type := .newsletter, confidence := min newsletterScore 100,
        reasons := reasons }
    else
      { type := .primary, confidence := 100, reasons := ["Standard email"] }

/-! ## `PurchaseExtractor` (contactExtractor.ts 1797-2153)

The leaf regex field extractors (`detectVendor`, `extractOrderId`,
`extractCurrency`, `extractItems`, `extractOrderStatus`,
`extractTrackingNumber`, `categorizePurchase`, `extractPaymentMethod`)
and the keyword-pattern counting are regex scans; their outputs for the
email at hand enter the embedding as the `RegexFields` record and as
match counts / candidate lists. -/

/-- Outputs of the leaf regex extractors on one email. -/
structure RegexFields where
  vendor : Option String := none
  orderId : Option String := none
  amount : ℚ := 0
  currency : String := "USD"
  items : List PurchaseItem := []
  status : Option String := none
  trackingNumber : Option String := none
  category : String := "Other"
  paymentMethod : Option String := none
deriving DecidableEq

/-- `calculatePurchaseScore` (contactExtractor.ts 1917-2011) over the
numbers of strong / medium / negative pattern matches:
`0.5·strong + 0.2·medium − 0.4·negative`, floored at `0.4` when a strong
match exists, capped at `0.3` when three or more negative matches exist,
then clamped to `[0,1]`. -/
def calculatePurchaseScore (strongMatches mediumMatches negativeMatches : Nat) : ℚ :=
  let score : ℚ :=
    strongMatches * (1/2) + mediumMatches * (1/5) - negativeMatches * (2/5)
  let score := if 0 < strongMatches then max score (2/5) else score
  let score := if 3 ≤ negativeMatches then min score (3/10) else score
  max 0 (min 1 score)

/-- The collection step of `extractAmount` (contactExtractor.ts 2137-2149):
from the parsed numeric captures of the total/amount/payment context
patterns, keep those with `amount > 0 && amount < 1000000`. -/
def collectAmounts (candidates : List ℚ) : List ℚ :=
  candidates.filter (fun a => decide (0 < a) && decide (a < 1000000))

/-- `extractAmount` (contactExtractor.ts 2124-2153) over the parsed
numeric captures: the largest collected amount, or 0 when none. -/
def extractAmount (candidates : List ℚ) : ℚ :=
  match collectAmounts candidates with
  | [] => 0
  | a :: rest => rest.foldl max a

/-- Result shape of `extractWithConfidence`. -/
structure ExtractionResult where
  purchase : Option Purchase
  confidence : ℚ
  needsAIAnalysis : Bool
deriving DecidableEq

/-- `extractWithConfidence` (contactExtractor.ts 1856-1915), over the leaf
regex outputs `flds` and the keyword score `purchaseScore`
(`calculatePurchaseScore` output); `now` is `Date.now()`. -/
def extractWithConfidence (flds : RegexFields) (purchaseScore : ℚ)
    (emailId : String) (timestamp : Option ℤ) (now : ℤ) : ExtractionResult :=
  let confidence := purchaseScore
  let needsAI :=
    decide ((3 : ℚ)/10 < confidence) && decide (confidence < (4 : ℚ)/5)
  if decide (confidence < (1 : ℚ)/5) then
    { purchase := none, confidence := confidence, needsAIAnalysis := false }
  else
    let vendor := flds.vendor
    let confidence := if truthy vendor then confidence else confidence * (1/2)
    let needsAI := if truthy vendor then needsAI else true
    if flds.amount == 0 || decide ((10000000 : ℚ) < flds.amount) then
      { purchase := none, confidence := 0, needsAIAnalysis := needsAI }
    else
      let confidence :=
        if truthy flds.orderId then min 1 (confidence * (12/10)) else confidence
      let confidence :=
        if truthy flds.trackingNumber then min 1 (confidence * (11/10))
        else confidence
      { purchase := some {
          id := emailId ++ "_" ++ toString now,
          orderId := flds.orderId,
          vendor := jsOr (flds.vendor.getD "") "Unknown",
          amount := flds.amount,
          currency := jsOr flds.currency "USD",
          date := timestamp.getD now,
          items := flds.items,
          status := flds.status,
          trackingNumber := flds.trackingNumber,
          category := some flds.category,
          paymentMethod := flds.paymentMethod,
          emailId := emailId,
          confidence := confidence },
        confidence := confidence,
        needsAIAnalysis := needsAI }

/-- The `purchase` sub-object of the AI analyzer's response. -/
structure AIPurchaseData where
  isPurchase : Bool
  confidence : ℚ
  vendor : Option String := none
  amount : Option ℚ := none
  currency : Option String := none
  orderId : Option String := none
  items : Option (List PurchaseItem) := none
  trackingNumber : Option String := none
  deliveryDate : Option String := none
deriving DecidableEq

/-- The AI analyzer's response; of its fields only `purchase` is read by
`extractPurchase` (the rest are logged or passed through). -/
structure AnalysisResult where
  purchase : Option AIPurchaseData := none
deriving DecidableEq

/-- `PurchaseExtractor.extractPurchase` (contactExtractor.ts 1797-1854).
`analysis` is the unified analyzer's answer (`null` on any adapter
failure).  The AI path runs only for `isPurchase` with confidence ≥ 0.3;
the regex fallback runs only when there is no analysis or no `purchase`
sub-object in it — an AI answer of "not a purchase" or low confidence
yields `none` directly. -/
def extractPurchase (analysis : Option AnalysisResult) (flds : RegexFields)
    (purchaseScore : ℚ) (emailId : String) (timestamp : Option ℤ) (now : ℤ) :
    Option Purchase :=
  match analysis.bind (fun a => a.purchase) with
  | some purchaseData =>
    if purchaseData.isPurchase
        && decide ((3 : ℚ)/10 ≤ purchaseData.confidence) then
      let vendor := jsOrOpt purchaseData.vendor flds.vendor
      let amount :=
        match purchaseData.amount with
        | some x => if x == 0 then flds.amount else x
        | none => flds.amount
      if !(truthy vendor) || amount == 0 then none
      else
        some {
          id := emailId ++ "_" ++ toString now,
          orderId := jsOrOpt purchaseData.orderId flds.orderId,
          vendor := vendor.getD "",
          amount := amount,
          currency :=
            if truthy purchaseData.currency then purchaseData.currency.getD ""
            else jsOr flds.currency "JPY",
          date := timestamp.getD now,
          items := purchaseData.items.getD flds.items,
          status := some (jsOr (flds.status.getD "") "Confirmed"),
          trackingNumber := jsOrOpt purchaseData.trackingNumber flds.trackingNumber,
          deliveryDate := purchaseData.deliveryDate,
          category := some flds.category,
          paymentMethod := flds.paymentMethod,
          emailId := emailId,
          confidence := purchaseData.confidence,
          aiAnalyzed := true }
    else none
  | none =>
    let regexResult := extractWithConfidence flds purchaseScore emailId timestamp now
    if decide ((1 : ℚ)/2 ≤ regexResult.confidence) then
      match regexResult.purchase with
      | some p => some { p with confidence := regexResult.confidence }
      | none => none
    else none

/-! ## Named projections of the `detectEmailType` accumulators

Standalone recomputations of the accumulated service and newsletter
scores, used to state the decision property of
`NewsletterDetector.detectEmailType`. -/

/-- Step 1 of `detectEmailType`: the subject matches a personal
(reply/forward/intent) pattern. -/
def hasPersonalPattern (email : EmailInput) : Bool :=
  exclusionPatterns.any (fun p => strHas (asciiLower email.subject) (asciiLower p))

/-- A keyword hits the lowered subject or body+snippet of the email. -/
def detectHit (email : EmailInput) (k : String) : Bool :=
  strHas (asciiLower email.subject) (asciiLower k)
    || strHas (asciiLower (email.body ++ " " ++ email.snippet)) (asciiLower k)

/-- The service-keyword loop total (+25 per hit, stop at 50). -/
def serviceKwScore (email : EmailInput) : Nat :=
  (kwScoreLoop (detectHit email) 25 50
    (fun k => "Service keyword: \"" ++ k ++ "\"") serviceAnnouncementKeywords 0 []).1

/-- The sender is a no-reply address. -/
def noReplySender (email : EmailInput) : Bool :=
  strHas (asciiLower email.fromAddr) "no-reply"
    || strHas (asciiLower email.fromAddr) "noreply"

/-- The accumulated service score of `detectEmailType`. -/
def serviceScoreOf (email : EmailInput) : Nat :=
  if noReplySender email && 0 < serviceKwScore email then serviceKwScore email + 20
  else serviceKwScore email

/-- The accumulated newsletter score of `detectEmailType`. -/
def newsletterScoreOf (email : EmailInput) : Nat :=
  let content := asciiLower (email.body ++ " " ++ email.snippet)
  let base := (kwScoreLoop (detectHit email) 20 60
    (fun k => "Newsletter keyword: \"" ++ k ++ "\"") newsletterKeywords 0 []).1
  let s1 := base +
    (if (newsletterDomains.find? (fun d => strHas (asciiLower email.fromAddr) d)).isSome
     then 30 else 0)
  let s2 := if noReplySender email && !(0 < serviceKwScore email : Bool) then s1 + 20 else s1
  let s3 := if strHas content "unsubscribe" || strHas content "配信停止" then s2 + 30 else s2
  if 7 < countLinks content.data then s3 + 20 else s3

-- `Rat.mul/add/sub/inv` are shipped `@[irreducible]`; reopen them so that
-- concrete runs of the embedded functions can be evaluated by `decide`.
unseal Rat.mul Rat.add Rat.sub Rat.inv

/-! ## Helper lemmas -/

theorem foldl_max_mem (l : List ℚ) : ∀ a : ℚ, l.foldl max a = a ∨ l.foldl max a ∈ l := by
  induction l with
  | nil => intro a; left; rfl
  | cons x xs ih =>
    intro a
    rw [List.foldl_cons]
    rcases max_choice a x with hm | hm <;> rw [hm]
    · rcases ih a with h | h
      · left; exact h
      · right; exact List.mem_cons_of_mem x h
    · rcases ih x with h | h
      · right; rw [h]; exact List.mem_cons_self x xs
      · right; exact List.mem_cons_of_mem x h

theorem le_foldl_max (l : List ℚ) : ∀ a : ℚ, a ≤ l.foldl max a ∧ ∀ b ∈ l, b ≤ l.foldl max a := by
  induction l with
  | nil => intro a; exact ⟨le_refl a, by simp⟩
  | cons x xs ih =>
    intro a
    obtain ⟨h1, h2⟩ := ih (max a x)
    refine ⟨le_trans (le_max_left a x) h1, ?_⟩
    intro b hb
    rcases List.mem_cons.1 hb with rfl | hb
    · exact le_trans (le_max_right a b) h1
    · exact h2 b hb

/-! ## C5: amount collection interval and maximum -/

/-- C5 counterexample: the boundary value 1,000,000 is NOT collected
(`amount < 1000000` is strict in the source), so `extractAmount` on an
email whose only context-pattern capture is `1000000` returns 0 rather
than 1,000,000 as the claim states. -/
theorem C5_counterexample :
    extractAmount [1000000] = 0 ∧ ¬ ((1000000 : ℚ) ∈ collectAmounts [1000000]) := by
  decide

/-- C5 (amended): `extractAmount` collects exactly the context-pattern
captures lying in the OPEN interval (0, 1,000,000) — the boundary
1,000,000 itself is excluded — and returns the maximum of the collected
candidates, or 0 when none are collected. -/
theorem C5_amount_interval_max (candidates : List ℚ) :
    (∀ a ∈ collectAmounts candidates, 0 < a ∧ a < 1000000) ∧
    (∀ a ∈ candidates, 0 < a → a < 1000000 → a ∈ collectAmounts candidates) ∧
    (collectAmounts candidates = [] → extractAmount candidates = 0) ∧
    (collectAmounts candidates ≠ [] →
      extractAmount candidates ∈ collectAmounts candidates ∧
      ∀ a ∈ collectAmounts candidates, a ≤ extractAmount candidates) := by
  refine ⟨?_, ?_, ?_, ?_⟩
  · intro a ha
    have := List.of_mem_filter ha
    simp only [Bool.and_eq_true, decide_eq_true_eq] at this
    exact this
  · intro a ha h0 h1
    exact List.mem_filter.2 ⟨ha, by simp [h0, h1]⟩
  · intro h
    unfold extractAmount
    rw [h]
  · intro h
    rcases hc : collectAmounts candidates with _ | ⟨a, rest⟩
    · exact absurd hc h
    · have hred : extractAmount candidates = rest.foldl max a := by
        unfold extractAmount
        rw [hc]
      rw [hred]
      constructor
      · rcases foldl_max_mem rest a with hm | hm
        · rw [hm]; exact List.mem_cons_self a rest
        · exact List.mem_cons_of_mem a hm
      · intro b hb
        rcases List.mem_cons.1 hb with rfl | hb
        · exact (le_foldl_max rest b).1
        · exact (le_foldl_max rest a).2 b hb

/-- C5 witness: on candidates `[5, 3, 2000000]` the collected list is
`[5, 3]` and the returned amount 5 is its maximum. -/
theorem C5_amount_interval_max_witness :
    extractAmount [5, 3, 2000000] ∈ collectAmounts [5, 3, 2000000] ∧
    ∀ a ∈ collectAmounts [5, 3, 2000000], a ≤ extractAmount [5, 3, 2000000] :=
  (C5_amount_interval_max [5, 3, 2000000]).2.2.2 (by decide)

/-! ## C6: three negative matches cap the purchase score -/

/-- C6: whenever an email text has at least three negative (marketing)
pattern matches, `calculatePurchaseScore` is at most 0.3, regardless of
the strong and medium match counts. -/
theorem C6_negative_cap (strongMatches mediumMatches negativeMatches : Nat)
    (h : 3 ≤ negativeMatches) :
    calculatePurchaseScore strongMatches mediumMatches negativeMatches ≤ 3/10 := by
  unfold calculatePurchaseScore
  simp only [if_pos h]
  apply max_le
  · norm_num
  · split <;>
    · exact le_trans (min_le_right _ _) (le_trans (min_le_right _ _) (le_refl _))

/-- C6 witness: five strong and two medium matches with three negative
matches still score at most 0.3. -/
theorem C6_negative_cap_witness :
    calculatePurchaseScore 5 2 3 ≤ 3/10 :=
  C6_negative_cap 5 2 3 (by decide)

/-! ## C7: 30-day staleness window of the persistent analysis cache -/

/-- C7: when a stored analysis row matches `(emailId, userId)`,
`getAnalysis` returns `none` (a cache miss forcing re-analysis) exactly
when `analyzedAt` is more than 30 days in the past, and the stored
analysis when it is within the 30-day window. -/
theorem C7_cache_staleness (rows : List AnalysisRow) (emailId userId : String)
    (now : ℤ) (row : AnalysisRow)
    (hfind : rows.find? (fun r => r.emailId == emailId && r.userId == userId) =
      some row) :
    (30 * msPerDay < now - row.analyzedAt →
      getAnalysis rows emailId userId now = none) ∧
    (now - row.analyzedAt ≤ 30 * msPerDay →
      getAnalysis rows emailId userId now = some row.analysisResult) := by
  unfold getAnalysis
  rw [hfind]
  dsimp only
  constructor
  · intro h
    rw [if_pos]
    exact decide_eq_true (by omega)
  · intro h
    rw [if_neg]
    simp only [decide_eq_true_eq]
    omega

/-- C7 witness: an analysis made at time 0 is still returned exactly 30
days later, and is a miss one millisecond after that. -/
theorem C7_cache_staleness_witness :
    getAnalysis [⟨"e", "u", 0, "A"⟩] "e" "u" (30 * msPerDay) = some "A" ∧
    getAnalysis [⟨"e", "u", 0, "A"⟩] "e" "u" (30 * msPerDay + 1) = none :=
  ⟨(C7_cache_staleness [⟨"e", "u", 0, "A"⟩] "e" "u" (30 * msPerDay)
      ⟨"e", "u", 0, "A"⟩ (by decide)).2 (by decide),
   (C7_cache_staleness [⟨"e", "u", 0, "A"⟩] "e" "u" (30 * msPerDay + 1)
      ⟨"e", "u", 0, "A"⟩ (by decide)).1 (by decide)⟩

/-! ## C10: shipping beats order when both match -/

/-- C10: in `determineEmailType`, when an order keyword and a shipping
keyword both match and no cancellation keyword matches, the result is
`shipping`; and `order` is returned only when an order keyword matches
and no shipping keyword matches. -/
theorem C10_shipping_over_order (subject body : String) :
    (cancellationKeywords.any (hasKwIn (asciiLower subject) (asciiLower body)) = false →
     orderKeywords.any (hasKwIn (asciiLower subject) (asciiLower body)) = true →
     shippingKeywords.any (hasKwIn (asciiLower subject) (asciiLower body)) = true →
     determineEmailType subject body = .shipping) ∧
    (determineEmailType subject body = .order →
     orderKeywords.any (hasKwIn (asciiLower subject) (asciiLower body)) = true ∧
     shippingKeywords.any (hasKwIn (asciiLower subject) (asciiLower body)) = false) := by
  unfold determineEmailType
  constructor
  · intro hc ho hs
    simp [hc, ho, hs]
  · intro h
    rcases hC : cancellationKeywords.any (hasKwIn (asciiLower subject) (asciiLower body)) with _ | _ <;>
      rcases hO : orderKeywords.any (hasKwIn (asciiLower subject) (asciiLower body)) with _ | _ <;>
        rcases hS : shippingKeywords.any (hasKwIn (asciiLower subject) (asciiLower body)) with _ | _ <;>
          simp [hC, hO, hS] at h ⊢

/-- C10 witness: a subject matching both `order #` and `shipped` with no
cancellation keyword is classified `shipping`. -/
theorem C10_shipping_over_order_witness :
    determineEmailType "Order #1 shipped" "x" = .shipping :=
  (C10_shipping_over_order "Order #1 shipped" "x").1 (by decide) (by decide) (by decide)

/-! ## Lookup lemmas for the exclusion table -/

theorem exclReason_mark_self (l : List (String × String)) (e r : String) :
    exclReason (markAsExcluded l e r) e = some r := by
  unfold exclReason markAsExcluded
  simp [List.find?_cons]

theorem find_filter_ne (l : List (String × String)) (e e' : String) (h : e' ≠ e) :
    (l.filter (fun x => !(x.1 == e))).find? (fun x => x.1 == e') =
      l.find? (fun x => x.1 == e') := by
  induction l with
  | nil => rfl
  | cons x xs ih =>
    by_cases hx : x.1 = e
    · rw [List.filter_cons_of_neg (by simp [hx]),
        List.find?_cons_of_neg _ (by simp [hx]; exact Ne.symm h)]
      exact ih
    · rw [List.filter_cons_of_pos (by simp [hx])]
      by_cases hx' : x.1 = e'
      · rw [List.find?_cons_of_pos _ (by simp [hx']),
          List.find?_cons_of_pos _ (by simp [hx'])]
      · rw [List.find?_cons_of_neg _ (by simp [hx']),
          List.find?_cons_of_neg _ (by simp [hx'])]
        exact ih

theorem exclReason_mark_other (l : List (String × String)) (e e' r : String)
    (h : e' ≠ e) :
    exclReason (markAsExcluded l e r) e' = exclReason l e' := by
  unfold exclReason markAsExcluded
  rw [List.find?_cons_of_neg _ (by simp; exact Ne.symm h), find_filter_ne l e e' h]

/-! ## C2: the `cancelled` flagging of the matched record is dead code -/

/-- C2 (code bug): the spec's cancellation step requires the existing
`(orderId, vendor)` record to be flagged `isExcluded` with reason
`"cancelled"`, and the router contains exactly that branch — but
`Database.getPurchases` never restores `order_id` to `orderId`, so on the
loaded store (`getPurchases [...]`) the related-purchase lookup finds
nothing: only the cancellation email itself is flagged
(`"cancellation_email"`), the stored record is never marked, and no
record is deleted.  Evaluated at the failing input: a stored `ORD1`
order from email `e1` and a cancellation email `e9` referencing `ORD1`. -/
theorem C2_code_behavior :
    exclReason (extractStep ⟨getPurchases [{ id := "e1_50", orderId := some "ORD1", vendor := "Amazon", amount := 1000, date := 0, emailId := "e1", emailType := some .unknown }], []⟩ "ご注文のキャンセル" "x"
      { id := "e9_77", orderId := some "ORD1", vendor := "Amazon", amount := 1000, date := 0, emailId := "e9" }).1.exclusions "e9" = some "cancellation_email" ∧
    exclReason (extractStep ⟨getPurchases [{ id := "e1_50", orderId := some "ORD1", vendor := "Amazon", amount := 1000, date := 0, emailId := "e1", emailType := some .unknown }], []⟩ "ご注文のキャンセル" "x"
      { id := "e9_77", orderId := some "ORD1", vendor := "Amazon", amount := 1000, date := 0, emailId := "e9" }).1.exclusions "e1" = none ∧
    (extractStep ⟨getPurchases [{ id := "e1_50", orderId := some "ORD1", vendor := "Amazon", amount := 1000, date := 0, emailId := "e1", emailType := some .unknown }], []⟩ "ご注文のキャンセル" "x"
      { id := "e9_77", orderId := some "ORD1", vendor := "Amazon", amount := 1000, date := 0, emailId := "e9" }).1.purchases = getPurchases [{ id := "e1_50", orderId := some "ORD1", vendor := "Amazon", amount := 1000, date := 0, emailId := "e1", emailType := some .unknown }] := by
  decide

/-! ## C3: idempotency check runs after, not before, the cancellation branch -/

/-- C3 counterexample: a cancellation email whose `emailId` (`"e1"`)
already has a stored record is NOT answered with the existing record
unchanged — the cancellation branch runs first, mutates the exclusion
table, and answers with the new candidate — refuting the claim that the
`emailId` idempotency check precedes all other processing. -/
theorem C3_counterexample :
    ¬ ((extractStep
          ⟨[{ id := "e1_50", orderId := some "ORD1", vendor := "Amazon", amount := 1000,
              date := 0, emailId := "e1", emailType := some .unknown }], []⟩
          "キャンセル完了" "x"
          { id := "e1_99", orderId := some "ORD1", vendor := "Amazon", amount := 500,
            date := 0, emailId := "e1" }).2.purchase =
        some { id := "e1_50", orderId := some "ORD1", vendor := "Amazon", amount := 1000,
               date := 0, emailId := "e1", emailType := some .unknown } ∧
       (extractStep
          ⟨[{ id := "e1_50", orderId := some "ORD1", vendor := "Amazon", amount := 1000,
              date := 0, emailId := "e1", emailType := some .unknown }], []⟩
          "キャンセル完了" "x"
          { id := "e1_99", orderId := some "ORD1", vendor := "Amazon", amount := 500,
            date := 0, emailId := "e1" }).1 =
        ⟨[{ id := "e1_50", orderId := some "ORD1", vendor := "Amazon", amount := 1000,
            date := 0, emailId := "e1", emailType := some .unknown }], []⟩) := by
  decide

/-- C3 (amended): for candidates NOT classified as cancellation, the
`emailId` idempotency check is the first processing step: when a record
already exists for the candidate's `emailId`, the extract step returns it
unchanged with `isNew = false` and leaves the whole user state unmodified
(so re-processing such an email yields identical record content).
Cancellation emails are handled before this check. -/
theorem C3_idempotency (st : UserState) (subject emailBody : String)
    (pu existing : Purchase)
    (hkind : determineEmailType subject emailBody ≠ .cancellation)
    (hfind : st.purchases.find? (fun p => p.emailId == pu.emailId) = some existing) :
    extractStep st subject emailBody pu =
      (st, { purchase := some existing, isNew := false }) := by
  unfold extractStep
  rw [if_neg (by simp only [beq_eq_false_iff_ne, ne_eq, Bool.not_eq_true]; simpa using hkind)]
  rw [hfind]

/-- C3 witness: re-submitting an email whose record is already stored
returns that record and changes nothing. -/
theorem C3_idempotency_witness :
    extractStep
      ⟨[{ id := "e1_50", orderId := some "ORD1", vendor := "Amazon", amount := 1000,
          date := 0, emailId := "e1", emailType := some .unknown }], []⟩
      "hello" "world"
      { id := "e1_99", orderId := some "ORD1", vendor := "Amazon", amount := 1000,
        date := 0, emailId := "e1" } =
      (⟨[{ id := "e1_50", orderId := some "ORD1", vendor := "Amazon", amount := 1000,
           date := 0, emailId := "e1", emailType := some .unknown }], []⟩,
       { purchase :=
           some { id := "e1_50", orderId := some "ORD1", vendor := "Amazon",
                  amount := 1000, date := 0, emailId := "e1",
                  emailType := some .unknown },
         isNew := false }) :=
  C3_idempotency
    ⟨[{ id := "e1_50", orderId := some "ORD1", vendor := "Amazon", amount := 1000,
        date := 0, emailId := "e1", emailType := some .unknown }], []⟩
    "hello" "world"
    { id := "e1_99", orderId := some "ORD1", vendor := "Amazon", amount := 1000,
      date := 0, emailId := "e1" }
    { id := "e1_50", orderId := some "ORD1", vendor := "Amazon", amount := 1000,
      date := 0, emailId := "e1", emailType := some .unknown }
    (by decide) (by decide)

/-! ## C1: the duplicate cascade never fires on the loaded store -/

/-- C1 (code bug): the spec's dedup step requires two emails sharing
`(orderId, vendor)` with equal amount to coalesce into one stored record
whose `relatedEmailIds` holds both email ids, and the router contains a
full `(orderId, vendor, amount)` merge cascade — but
`Database.getPurchases` never restores `order_id`/`tracking_number`/
`email_type` to camelCase, so on the loaded store every record has
`orderId = none` and the cascade's `findIndex` never matches: the second
email is inserted as a fresh row.  Evaluated at the failing input (store
loaded with the `ORD1`/Amazon/1000 record from email `e1`; second email
`e2` with the same `orderId`, vendor and amount): the store ends with
two records, `isDuplicate` is reported `false`, and no record's
`relatedEmailIds` contains both source email ids. -/
theorem C1_code_behavior :
    (extractStep ⟨getPurchases [{ id := "e1_50", orderId := some "ORD1", vendor := "Amazon", amount := 1000, date := 0, emailId := "e1", emailType := some .unknown }], []⟩ "hello" "world"
      { id := "e2_100", orderId := some "ORD1", vendor := "Amazon", amount := 1000, date := 0, emailId := "e2" }).1.purchases.length = 2 ∧
    (extractStep ⟨getPurchases [{ id := "e1_50", orderId := some "ORD1", vendor := "Amazon", amount := 1000, date := 0, emailId := "e1", emailType := some .unknown }], []⟩ "hello" "world"
      { id := "e2_100", orderId := some "ORD1", vendor := "Amazon", amount := 1000, date := 0, emailId := "e2" }).2.isDuplicate = false ∧
    ∀ r ∈ (extractStep ⟨getPurchases [{ id := "e1_50", orderId := some "ORD1", vendor := "Amazon", amount := 1000, date := 0, emailId := "e1", emailType := some .unknown }], []⟩ "hello" "world"
      { id := "e2_100", orderId := some "ORD1", vendor := "Amazon", amount := 1000, date := 0, emailId := "e2" }).1.purchases,
      ¬ ("e1" ∈ r.relatedEmailIds ∧ "e2" ∈ r.relatedEmailIds) := by
  decide

/-! ## C4: the regex fallback does not run on an AI rejection -/

/-- C4 counterexample: the analyzer answered with a `purchase` object
carrying `isPurchase = false`, and the standalone regex extraction scores
1 ≥ 0.5 with a purchase available — yet `extractPurchase` returns `none`,
refuting the claim that the regex fallback runs whenever the AI says
not-a-purchase (or reports low confidence). -/
theorem C4_counterexample :
    extractPurchase (some { purchase := some { isPurchase := false, confidence := 9/10 } })
      { vendor := some "Amazon", amount := 1000 } 1 "e1" none 0 = none ∧
    (1 : ℚ)/2 ≤ (extractWithConfidence { vendor := some "Amazon", amount := 1000 }
      1 "e1" none 0).confidence ∧
    (extractWithConfidence { vendor := some "Amazon", amount := 1000 }
      1 "e1" none 0).purchase ≠ none := by
  decide

/-- C4 (amended): the regex fallback runs exactly when the analyzer
returned no result or a result without a `purchase` sub-object (and then
the regex purchase is returned exactly when its confidence is ≥ 0.5);
when the analyzer's `purchase` has `isPurchase = false` or confidence
below 0.3, `extractPurchase` returns `none` without consulting the regex
extractor. -/
theorem C4_fallback_scope (analysis : Option AnalysisResult) (flds : RegexFields)
    (purchaseScore : ℚ) (emailId : String) (timestamp : Option ℤ) (now : ℤ) :
    (analysis.bind (fun a => a.purchase) = none →
      extractPurchase analysis flds purchaseScore emailId timestamp now =
        (if (1 : ℚ)/2 ≤ (extractWithConfidence flds purchaseScore emailId timestamp now).confidence then
          (extractWithConfidence flds purchaseScore emailId timestamp now).purchase.map
            (fun p => { p with confidence :=
              (extractWithConfidence flds purchaseScore emailId timestamp now).confidence })
         else none)) ∧
    (∀ purchaseData, analysis.bind (fun a => a.purchase) = some purchaseData →
      purchaseData.isPurchase = false ∨ purchaseData.confidence < 3/10 →
      extractPurchase analysis flds purchaseScore emailId timestamp now = none) := by
  constructor
  · intro h
    unfold extractPurchase
    rw [h]
    rcases hp : (extractWithConfidence flds purchaseScore emailId timestamp now).purchase with _ | p
    · simp [hp]
    · simp [hp]
  · intro purchaseData h hrej
    unfold extractPurchase
    rw [h]
    dsimp only
    have hc : (purchaseData.isPurchase
        && decide ((3 : ℚ)/10 ≤ purchaseData.confidence)) = false := by
      rcases hrej with hrej | hrej
      · rw [hrej, Bool.false_and]
      · rw [decide_eq_false (not_le.2 hrej), Bool.and_false]
    rw [hc, if_neg Bool.false_ne_true]

/-- C4 witness: with no analyzer result and a standalone regex confidence
of 1 (≥ 0.5), the regex-built purchase is returned. -/
theorem C4_fallback_scope_witness :
    extractPurchase none { vendor := some "Amazon", amount := 1000 } 1 "e2" none 0 =
      (if (1 : ℚ)/2 ≤ (extractWithConfidence { vendor := some "Amazon", amount := 1000 }
            1 "e2" none 0).confidence then
        (extractWithConfidence { vendor := some "Amazon", amount := 1000 }
            1 "e2" none 0).purchase.map
          (fun p => { p with confidence :=
            (extractWithConfidence { vendor := some "Amazon", amount := 1000 }
              1 "e2" none 0).confidence })
       else none) :=
  (C4_fallback_scope none { vendor := some "Amazon", amount := 1000 } 1 "e2" none 0).1
    (by decide)

/-! ## C8: the detectEmailType decision -/

theorem kwScoreLoop_fst_rs (hit : String → Bool) (inc cap : Nat)
    (label : String → String) :
    ∀ (ks : List String) (s : Nat) (rs₁ rs₂ : List String),
      (kwScoreLoop hit inc cap label ks s rs₁).1 =
        (kwScoreLoop hit inc cap label ks s rs₂).1 := by
  intro ks
  induction ks with
  | nil => intro s rs₁ rs₂; rfl
  | cons k ks ih =>
    intro s rs₁ rs₂
    unfold kwScoreLoop
    by_cases hk : hit k = true
    · rw [if_pos hk, if_pos hk]
      dsimp only
      by_cases hc : cap ≤ s + inc
      · rw [if_pos hc, if_pos hc]
      · rw [if_neg hc, if_neg hc]
        exact ih _ _ _
    · rw [if_neg hk, if_neg hk]
      exact ih _ _ _

set_option maxHeartbeats 2000000 in
/-- C8: `NewsletterDetector.detectEmailType` answers `primary` at
confidence 100 on a personal-pattern subject; otherwise it answers
`service_announcement` when the accumulated service score reaches 50,
else `newsletter` when the accumulated newsletter score reaches 50, else
`primary`; and the reported confidence never exceeds 100. -/
theorem C8_detect_decision (email : EmailInput) :
    (hasPersonalPattern email = true →
      NewsletterDetector.detectEmailType email =
        { type := .primary, confidence := 100, reasons := ["Personal email pattern"] }) ∧
    (hasPersonalPattern email = false →
      (NewsletterDetector.detectEmailType email).type =
        (if 50 ≤ serviceScoreOf email then .service_announcement
         else if 50 ≤ newsletterScoreOf email then .newsletter
         else .primary)) ∧
    (NewsletterDetector.detectEmailType email).confidence ≤ 100 := by
  refine ⟨?_, ?_, ?_⟩
  · intro h
    unfold hasPersonalPattern at h
    unfold NewsletterDetector.detectEmailType
    dsimp only
    rw [if_pos h]
  · intro h
    unfold hasPersonalPattern at h
    unfold NewsletterDetector.detectEmailType serviceScoreOf newsletterScoreOf
      serviceKwScore noReplySender detectHit
    dsimp only
    rw [if_neg (by rw [h]; exact Bool.false_ne_true)]
    rw [kwScoreLoop_fst_rs _ 20 60 _ newsletterKeywords 0 _ []]
    split_ifs <;> rfl
  · unfold NewsletterDetector.detectEmailType
    dsimp only
    split_ifs <;>
      first
        | exact le_refl 100
        | exact Nat.min_le_right _ _

/-- C8 witness: a non-personal marketing email is classified by the
threshold decision on the accumulated scores. -/
theorem C8_detect_decision_witness :
    (NewsletterDetector.detectEmailType
      { subject := "Weekly digest", fromAddr := "news@example.com",
        body := "please unsubscribe now", snippet := "" }).type =
      (if 50 ≤ serviceScoreOf
          { subject := "Weekly digest", fromAddr := "news@example.com",
            body := "please unsubscribe now", snippet := "" }
       then .service_announcement
       else if 50 ≤ newsletterScoreOf
          { subject := "Weekly digest", fromAddr := "news@example.com",
            body := "please unsubscribe now", snippet := "" }
       then .newsletter
       else .primary) :=
  (C8_detect_decision
    { subject := "Weekly digest", fromAddr := "news@example.com",
      body := "please unsubscribe now", snippet := "" }).2.1 (by decide)

/-! ## C9: relatedEmailIds is append-only, records are never deleted -/

theorem findWithIdx_mem (pr : Purchase → Bool) (ps : List Purchase)
    (i : Nat) (q : Purchase) (h : findWithIdx pr ps = some (i, q)) :
    q ∈ ps ∧ pr q = true := by
  induction ps generalizing i with
  | nil => exact absurd h (by simp [findWithIdx])
  | cons x xs ih =>
    unfold findWithIdx at h
    by_cases hx : pr x = true
    · rw [if_pos hx] at h
      injection h with h2
      injection h2 with hi hq
      subst hq
      exact ⟨List.mem_cons_self x xs, hx⟩
    · rw [if_neg hx] at h
      obtain ⟨⟨j, y⟩, hj, hfy⟩ := Option.map_eq_some'.1 h
      injection hfy with hji hy
      subst hy
      exact ⟨List.mem_cons_of_mem x (ih j hj).1, (ih j hj).2⟩

theorem dupCascade_shape (ps : List Purchase) (sp : Purchase) (et : EmailKind)
    (i : Nat) (nr : Purchase) (h : dupCascade ps sp et = some (i, nr)) :
    (nr.id = sp.id ∧ nr.emailId = sp.emailId) ∨
      (∃ q ∈ ps, nr.id = q.id ∧ nr.emailId = q.emailId ∧
        ∃ t, nr.relatedEmailIds = q.relatedEmailIds ++ t) := by
  unfold dupCascade at h
  by_cases hg : (truthy sp.orderId && !(sp.vendor == "")) = true
  · rw [if_pos hg] at h
    rcases hfd : findWithIdx (fun p =>
        p.orderId == sp.orderId && p.vendor == sp.vendor
          && amountClose p.amount sp.amount) ps with _ | ⟨j, existing⟩
    · rw [hfd] at h
      exact absurd h (by simp)
    · rw [hfd] at h
      dsimp only at h
      have hmem := (findWithIdx_mem _ _ _ _ hfd).1
      by_cases h1 : (et == EmailKind.order
          && existing.emailType == some EmailKind.shipping) = true
      · rw [if_pos h1] at h
        injection h with h2
        injection h2 with hji hnr
        subst hnr
        exact Or.inl ⟨rfl, rfl⟩
      · rw [if_neg h1] at h
        by_cases h2 : (et == EmailKind.shipping
            && existing.emailType == some EmailKind.order) = true
        · rw [if_pos h2] at h
          injection h with h3
          injection h3 with hji hnr
          subst hnr
          exact Or.inr ⟨existing, hmem, rfl, rfl, [sp.emailId], rfl⟩
        · rw [if_neg h2] at h
          by_cases h3 : decide (|existing.date - sp.date| < sevenDaysMs) = true
          · rw [if_pos h3] at h
            injection h with h4
            injection h4 with hji hnr
            subst hnr
            exact Or.inr ⟨existing, hmem, rfl, rfl, [sp.emailId], rfl⟩
          · rw [if_neg h3] at h
            exact absurd h (by simp)
  · rw [if_neg hg] at h
    exact absurd h (by simp)

theorem trackCascade_shape (ps : List Purchase) (sp : Purchase)
    (i : Nat) (nr : Purchase) (h : trackCascade ps sp = some (i, nr)) :
    ∃ q ∈ ps, nr.id = q.id ∧ nr.emailId = q.emailId ∧
      ∃ t, nr.relatedEmailIds = q.relatedEmailIds ++ t := by
  unfold trackCascade at h
  by_cases hg : truthy sp.trackingNumber = true
  · rw [if_pos hg] at h
    rcases hfd : findWithIdx (fun p =>
        p.trackingNumber == sp.trackingNumber && p.vendor == sp.vendor) ps
      with _ | ⟨j, q⟩
    · rw [hfd] at h
      exact absurd h (by simp)
    · rw [hfd] at h
      dsimp only at h
      injection h with h2
      injection h2 with hji hnr
      subst hnr
      exact ⟨q, (findWithIdx_mem _ _ _ _ hfd).1, rfl, rfl, [sp.emailId], rfl⟩
  · rw [if_neg hg] at h
    exact absurd h (by simp)

theorem savePurchase_survives (ps : List Purchase) (d : Purchase)
    (hIds : (ps.map (fun r => r.id)).Nodup)
    (hEm : (ps.map (fun r => r.emailId)).Nodup)
    (hd : (d.id ∉ ps.map (fun r => r.id) ∧ d.emailId ∉ ps.map (fun r => r.emailId)) ∨
          (∃ q ∈ ps, d.id = q.id ∧ d.emailId = q.emailId ∧
            ∃ t, d.relatedEmailIds = q.relatedEmailIds ++ t)) :
    ∀ r ∈ ps, ∃ r' ∈ savePurchase ps d, r'.id = r.id ∧
      ∃ t, r'.relatedEmailIds = r.relatedEmailIds ++ t := by
  intro r hr
  unfold savePurchase
  by_cases hcl : r.id = d.id ∨ r.emailId = d.emailId
  · rcases hd with ⟨hfr1, hfr2⟩ | ⟨q, hq, hdq1, hdq2, t, hdt⟩
    · exfalso
      rcases hcl with hcl | hcl
      · exact hfr1 (hcl ▸ List.mem_map_of_mem (fun r => r.id) hr)
      · exact hfr2 (hcl ▸ List.mem_map_of_mem (fun r => r.emailId) hr)
    · have hrq : r = q := by
        rcases hcl with hcl | hcl
        · exact List.inj_on_of_nodup_map hIds hr hq (hcl.trans hdq1)
        · exact List.inj_on_of_nodup_map hEm hr hq (hcl.trans hdq2)
      subst hrq
      exact ⟨d, List.mem_append_right _ (List.mem_singleton.2 rfl), hdq1,
        t, by rw [hdt]⟩
  · push_neg at hcl
    obtain ⟨h1, h2⟩ := hcl
    refine ⟨r, List.mem_append_left _ ?_, rfl, [], (List.append_nil _).symm⟩
    refine List.mem_filter.2 ⟨hr, ?_⟩
    simp only [Bool.and_eq_true, Bool.not_eq_true']
    exact ⟨by simp [h1], by simp [h2]⟩

/-- C9: across the extract endpoint, no stored purchase record is ever
deleted and each surviving record's `relatedEmailIds` only ever grows by
appending (under the store invariants that record `id`s and `emailId`s
are distinct and the candidate's fresh `id` is unused); the manual
exclusion endpoint never touches the purchases store at all. -/
theorem C9_append_only_no_delete (st : UserState) (subject emailBody : String)
    (pu : Purchase)
    (hIds : (st.purchases.map (fun r => r.id)).Nodup)
    (hEm : (st.purchases.map (fun r => r.emailId)).Nodup)
    (hFresh : pu.id ∉ st.purchases.map (fun r => r.id)) :
    (∀ r ∈ st.purchases,
       ∃ r' ∈ (extractStep st subject emailBody pu).1.purchases,
         r'.id = r.id ∧ ∃ t, r'.relatedEmailIds = r.relatedEmailIds ++ t) ∧
    (∀ emailId reason, (excludeStep st emailId reason).purchases = st.purchases) := by
  constructor
  · intro r hr
    unfold extractStep
    by_cases hc : ((determineEmailType subject emailBody) == EmailKind.cancellation) = true
    · rw [if_pos hc]
      exact ⟨r, hr, rfl, [], (List.append_nil _).symm⟩
    · rw [if_neg hc]
      dsimp only
      rcases hfe : st.purchases.find? (fun p => p.emailId == pu.emailId) with _ | existing
      · simp only [hfe]
        have hEmFresh : pu.emailId ∉ st.purchases.map (fun r => r.emailId) := by
          intro hmem
          obtain ⟨p, hp, hpe⟩ := List.mem_map.1 hmem
          have := List.find?_eq_none.1 hfe p hp
          simp only [beq_iff_eq] at this
          exact this hpe
        rcases hdupe : dupCascade st.purchases
            { pu with emailType := some (determineEmailType subject emailBody) }
            (determineEmailType subject emailBody) with _ | ⟨i, nr⟩
        · rcases htr : trackCascade st.purchases
              { pu with emailType := some (determineEmailType subject emailBody) }
            with _ | ⟨j, trr⟩
          · simp only [hdupe, htr, Option.isSome_none, Bool.false_eq_true, if_false,
              Bool.false_or]
            exact savePurchase_survives st.purchases
              { pu with emailType := some (determineEmailType subject emailBody) }
              hIds hEm (Or.inl ⟨hFresh, hEmFresh⟩) r hr
          · simp only [hdupe, htr, Option.isSome_none, Option.isSome_some,
              Bool.false_eq_true, if_false, Bool.false_or, if_true]
            rcases hsv : (st.purchases.set j trr).find? (fun p =>
                (truthy p.orderId && p.orderId == pu.orderId)
                || (truthy p.trackingNumber && p.trackingNumber == pu.trackingNumber))
              with _ | d
            · simp only [hsv]
              exact ⟨r, hr, rfl, [], (List.append_nil _).symm⟩
            · simp only [hsv]
              rcases List.mem_or_eq_of_mem_set (List.mem_of_find?_eq_some hsv)
                with hdps | hdeq
              · exact savePurchase_survives st.purchases d hIds hEm
                  (Or.inr ⟨d, hdps, rfl, rfl, [], (List.append_nil _).symm⟩) r hr
              · subst hdeq
                obtain ⟨q, hq, h1, h2, t, h3⟩ := trackCascade_shape _ _ _ _ htr
                exact savePurchase_survives st.purchases d hIds hEm
                  (Or.inr ⟨q, hq, h1, h2, t, h3⟩) r hr
        · simp only [hdupe, Option.isSome_some, Bool.true_or, if_true]
          rcases hsv : (st.purchases.set i nr).find? (fun p =>
              (truthy p.orderId && p.orderId == pu.orderId)
              || (truthy p.trackingNumber && p.trackingNumber == pu.trackingNumber))
            with _ | d
          · simp only [hsv]
            exact ⟨r, hr, rfl, [], (List.append_nil _).symm⟩
          · simp only [hsv]
            rcases List.mem_or_eq_of_mem_set (List.mem_of_find?_eq_some hsv)
              with hdps | hdeq
            · exact savePurchase_survives st.purchases d hIds hEm
                (Or.inr ⟨d, hdps, rfl, rfl, [], (List.append_nil _).symm⟩) r hr
            · subst hdeq
              rcases dupCascade_shape _ _ _ _ _ hdupe with ⟨h1, h2⟩ | ⟨q, hq, h1, h2, t, h3⟩
              · exact savePurchase_survives st.purchases d hIds hEm
                  (Or.inl ⟨h1 ▸ hFresh, h2 ▸ hEmFresh⟩) r hr
              · exact savePurchase_survives st.purchases d hIds hEm
                  (Or.inr ⟨q, hq, h1, h2, t, h3⟩) r hr
      · simp only [hfe]
        exact ⟨r, hr, rfl, [], (List.append_nil _).symm⟩
  · intro emailId reason
    rfl

/-- C9 witness: on a one-record store with distinct ids, processing a
fresh email preserves the record (same id, `relatedEmailIds` only
extended), and manual exclusion leaves the purchases untouched. -/
theorem C9_append_only_no_delete_witness :
    (∀ r ∈ (⟨[{ id := "e1_50", orderId := some "ORD1", vendor := "Amazon", amount := 1000, date := 0, emailId := "e1", emailType := some .unknown }], []⟩ : UserState).purchases,
       ∃ r' ∈ (extractStep ⟨[{ id := "e1_50", orderId := some "ORD1", vendor := "Amazon", amount := 1000, date := 0, emailId := "e1", emailType := some .unknown }], []⟩ "hello" "world" { id := "e2_100", orderId := some "ORD1", vendor := "Amazon", amount := 1000, date := 0, emailId := "e2" }).1.purchases,
         r'.id = r.id ∧ ∃ t, r'.relatedEmailIds = r.relatedEmailIds ++ t) ∧
    (∀ emailId reason,
       (excludeStep ⟨[{ id := "e1_50", orderId := some "ORD1", vendor := "Amazon", amount := 1000, date := 0, emailId := "e1", emailType := some .unknown }], []⟩ emailId reason).purchases =
         (⟨[{ id := "e1_50", orderId := some "ORD1", vendor := "Amazon", amount := 1000, date := 0, emailId := "e1", emailType := some .unknown }], []⟩ : UserState).purchases) :=
  C9_append_only_no_delete ⟨[{ id := "e1_50", orderId := some "ORD1", vendor := "Amazon", amount := 1000, date := 0, emailId := "e1", emailType := some .unknown }], []⟩ "hello" "world" { id := "e2_100", orderId := some "ORD1", vendor := "Amazon", amount := 1000, date := 0, emailId := "e2" }
    (by decide) (by decide) (by decide)
